import Mathlib

/-!
Shallow embedding of src/secure_chatbot.py: a chatbot that gates each user
input through the Palo Alto Networks AI Security scan API before forwarding
it to the OpenAI chat-completion API.  The embedding models

* the scan request construction and the POST it issues
  (scan_prompt_with_paloalto_api, lines 44-77),
* the threat-finding extraction and the implicit "General Threat" guard
  (lines 96-163),
* the except-branches of the scan function, each of which prints a distinct
  diagnostic and returns None (lines 166-192),
* the decision chain and the conditional OpenAI call of main
  (lines 309-406), with network effects reified as call traces.

Machine-level concerns (actual sockets, stdout, the uuid RNG) are modelled
by explicit parameters: the network is a function argument, prints are
returned strings, and the per-call uuid4 value is the transaction_id
parameter, generated once per invocation in the source.
-/

namespace SecureChatbot

/-- Origin of a threat finding: found in the prompt map, the response map,
or synthesized by the general-threat guard clause. -/
inductive Origin where
  | Prompt
  | Response
  | General
deriving DecidableEq, Repr

/-- One detected threat: the raw category key, the resolved display name,
and where it was detected. -/
structure ThreatFinding where
  key : String
  displayName : String
  origin : Origin
deriving DecidableEq, Repr

/-- Fixed threat-category display-name table (source lines 96-117). -/
def threat_categories : List (String × String) :=
  [("prompt_injection", "Prompt Injection Attack"),
   ("injection", "Prompt Injection Attack"),
   ("jailbreak", "Jailbreak Attempt"),
   ("malicious_code", "Malicious Code Generation"),
   ("sensitive_data", "Sensitive Data Exposure"),
   ("toxicity", "Toxic Content"),
   ("bias", "Bias Detection"),
   ("harmful_content", "Harmful Content"),
   ("url_cats", "Malicious URL Detection"),
   ("malware", "Malware Detection"),
   ("db_security", "Database Security Threat"),
   ("dlp", "Data Loss Prevention"),
   ("pii", "Personal Identifiable Information"),
   ("financial_data", "Financial Data Exposure"),
   ("intellectual_property", "Intellectual Property Risk"),
   ("code_injection", "Code Injection"),
   ("resource_overload", "Resource Overload/DoS"),
   ("hallucination", "AI Hallucination")]

/-- Replacement of every underscore by a space, the effect of the source's
threat_type.replace with arguments underscore and space. -/
def underscoreToSpace (s : String) : String :=
  String.map (fun c => if c = '_' then ' ' else c) s

/-- Character-level core of Python str.title: a letter is uppercased when
the previous character is not a letter and lowercased otherwise. -/
def titleCore : Bool → List Char → List Char
  | _, [] => []
  | prevAlpha, c :: cs =>
    (if c.isAlpha then (if prevAlpha then c.toLower else c.toUpper) else c)
      :: titleCore c.isAlpha cs

/-- Python str.title on a string. -/
def pyTitle (s : String) : String :=
  String.mk (titleCore false s.data)

/-- Display-name resolution: threat_categories.get with the humanized key as
the default (source lines 133-134 and 143-144). -/
def threatName (threat_type : String) : String :=
  match threat_categories.lookup threat_type with
  | some name => name
  | none => pyTitle (underscoreToSpace threat_type)

/-- Raw scan response as the code reads it: category and action are looked
up with dict.get (absent key gives None, hence Option), and the two detected
maps are sequences of key/boolean pairs in iteration order. -/
structure ScanResponse where
  category : Option String
  action : Option String
  prompt_detected : List (String × Bool)
  response_detected : List (String × Bool)
deriving DecidableEq, Repr

/-- Loop of source lines 131-136 (and 141-146): walk one detected map in
iteration order, emit a finding for every key whose value is true, and
thread the threats_found flag. -/
def detectLoop (origin : Origin) :
    List (String × Bool) → Bool → List ThreatFinding × Bool
  | [], threats_found => ([], threats_found)
  | (threat_type, detected) :: rest, threats_found =>
    if detected then
      let r := detectLoop origin rest true
      (⟨threat_type, threatName threat_type, origin⟩ :: r.1, r.2)
    else
      detectLoop origin rest threats_found

/-- Findings of one scan result before the guard clause: prompt findings
then response findings, with the threaded threats_found flag. -/
def scanFindings (resp : ScanResponse) : List ThreatFinding × Bool :=
  let p := detectLoop Origin.Prompt resp.prompt_detected false
  let r := detectLoop Origin.Response resp.response_detected p.2
  (p.1 ++ r.1, r.2)

/-- Finding synthesized by the guard clause of source lines 157-159, which
prints a GENERAL THREAT line when category is malicious and no threat was
found in either map. -/
def generalThreatFinding : ThreatFinding :=
  ⟨"general", "General Threat", Origin.General⟩

/-- Findings the scan function reports: the extracted findings, plus the one
synthesized general finding when the guard of lines 157-159 fires. -/
def reportedFindings (resp : ScanResponse) : List ThreatFinding :=
  let x := scanFindings resp
  if resp.category = some "malicious" ∧ x.2 = false then
    x.1 ++ [generalThreatFinding]
  else
    x.1

/-- Canonical decision of main's chain at lines 319, 330 and 393:
if category == "malicious" or action == "block" then Block, elif
category == "benign" and action == "allow" then Allow, else Ambiguous. -/
inductive Decision where
  | Allow
  | Block
  | Ambiguous
deriving DecidableEq, Repr

/-- Decision computed from the category and action fields exactly as main's
if/elif/else chain does. -/
def decisionOf (category action : Option String) : Decision :=
  if category = some "malicious" ∨ action = some "block" then
    Decision.Block
  else if category = some "benign" ∧ action = some "allow" then
    Decision.Allow
  else
    Decision.Ambiguous

/-- Failure modes of the scan call, one per except clause of source lines
166-192: requests HTTPError (with status code and response body), requests
ConnectionError, requests Timeout, any other requests RequestException, and
json JSONDecodeError (with the raw response text). -/
inductive ScanFailure where
  | HttpError (code : Nat) (body : String)
  | ConnectionError (msg : String)
  | Timeout (msg : String)
  | RequestError (msg : String)
  | JsonDecodeError (msg : String) (raw : String)
deriving DecidableEq, Repr

/-- Except-branch handling of source lines 166-192: each failure kind prints
its own diagnostic lines, and every branch returns None to the caller
(the docstring: None if the API request fails for any reason). -/
def handleScanFailure : ScanFailure → List String × Option ScanResponse
  | ScanFailure.HttpError code body =>
    (["❌ HTTP Error: " ++ toString code,
      "   Server Response: " ++ body,
      "   This typically indicates authentication issues or server problems"],
     none)
  | ScanFailure.ConnectionError msg =>
    (["❌ Connection Error: " ++ msg,
      "   Check your internet connection and firewall settings"],
     none)
  | ScanFailure.Timeout msg =>
    (["❌ Timeout Error: " ++ msg,
      "   The API server is not responding within the expected time"],
     none)
  | ScanFailure.RequestError msg =>
    (["❌ Request Error: " ++ msg,
      "   An unexpected network error occurred"],
     none)
  | ScanFailure.JsonDecodeError msg raw =>
    (["❌ JSON Decode Error: " ++ msg,
      "   Raw Response: " ++ raw,
      "   The server returned malformed data"],
     none)

/-- One HTTP POST as the scan function issues it: requests.post(url,
headers, data=json.dumps(payload)), with the payload fields flattened
(tr_id, ai_profile.profile_name, and the prompts of the contents array). -/
structure PostRequest where
  url : String
  headers : List (String × String)
  tr_id : String
  profile_name : String
  contents : List String
deriving DecidableEq, Repr

/-- Scan function (source lines 44-192) with the network reified as the
argument net.  The transaction_id parameter stands for the uuid4 value the
source generates once at line 48.  Returns the list of POSTs issued, the
diagnostic Content display line of line 73 (whose excerpt is truncated to
50 characters), and the value returned to main: the parsed response on
success, None on every failure. -/
def scanPrompt (prompt api_key ai_profile_name base_url transaction_id :
    String) (net : PostRequest → Except ScanFailure ScanResponse) :
    List PostRequest × String × Option ScanResponse :=
  let url := base_url ++ "/v1/scan/sync/request"
  let headers := [("Content-Type", "application/json"),
                  ("Accept", "application/json"),
                  ("x-pan-token", api_key)]
  let payload : PostRequest :=
    { url := url, headers := headers, tr_id := transaction_id,
      profile_name := ai_profile_name, contents := [prompt] }
  let contentDisplay := "   Content: \x27" ++ String.take prompt 50
    ++ "...\x27 (" ++ toString (String.length prompt) ++ " characters)"
  match net payload with
  | Except.ok scan_result => ([payload], contentDisplay, some scan_result)
  | Except.error f => ([payload], contentDisplay, (handleScanFailure f).2)

/-- One chat message of the completion request. -/
structure ChatMessage where
  role : String
  content : String
deriving DecidableEq, Repr

/-- System message content of source line 353. -/
def systemMessageContent : String :=
  "You are a helpful, knowledgeable, and professional assistant."

/-- Completion request as openai_client.chat.completions.create receives it
at source lines 347-368.  The numeric sampling parameters are rationals
standing for the float literals of the source. -/
structure CompletionRequest where
  model : String
  messages : List ChatMessage
  temperature : ℚ
  max_tokens : Nat
  top_p : ℚ
  frequency_penalty : ℚ
  presence_penalty : ℚ
  stop : Option (List String)
deriving DecidableEq, Repr

/-- Construction of the completion request (source lines 347-368): the fixed
system message, the current user input, and the literal sampling
parameters. -/
def buildCompletionRequest (openai_model user_input : String) :
    CompletionRequest :=
  { model := openai_model,
    messages := [{ role := "system", content := systemMessageContent },
                 { role := "user", content := user_input }],
    temperature := 0.7,
    max_tokens := 800,
    top_p := 0.95,
    frequency_penalty := 0,
    presence_penalty := 0,
    stop := none }

/-- Error kinds a processed input can end with: the scan returned None
(lines 401-406), the OpenAI call raised (lines 380-384), or the OpenAI
client was never initialized (lines 386-391). -/
inductive ErrorKind where
  | ScanFailed
  | GenerationFailed
  | CompletionUnavailable
deriving DecidableEq, Repr

/-- Outcome of processing one input: the decision reached (None when the
scan failed and no decision was computed), the findings reported during the
scan, the AI response text when one was produced, and the error kind. -/
structure PipelineOutcome where
  decision : Option Decision
  findings : List ThreatFinding
  generatedText : Option String
  errorKind : Option ErrorKind
deriving DecidableEq, Repr

/-- Decision processing of main, lines 309-406, for one loop iteration:
scan_result is what scan_prompt_with_paloalto_api returned, openai_client
tells whether the OpenAI client was initialized, and genResult is the
outcome of the OpenAI call when one is made.  Returns the outcome together
with the trace of completion requests issued (the source constructs the
request at the call site of line 347; a raising call still counts as
issued). -/
def processScanResult (scan_result : Option ScanResponse)
    (openai_client : Bool) (openai_model user_input : String)
    (genResult : Except String String) :
    PipelineOutcome × List CompletionRequest :=
  match scan_result with
  | some sr =>
    let findings := reportedFindings sr
    match decisionOf sr.category sr.action with
    | Decision.Block =>
      ({ decision := some Decision.Block, findings := findings,
         generatedText := none, errorKind := none }, [])
    | Decision.Allow =>
      if openai_client then
        match genResult with
        | Except.ok ai_response =>
          ({ decision := some Decision.Allow, findings := findings,
             generatedText := some ai_response, errorKind := none },
           [buildCompletionRequest openai_model user_input])
        | Except.error _ =>
          ({ decision := some Decision.Allow, findings := findings,
             generatedText := none,
             errorKind := some ErrorKind.GenerationFailed },
           [buildCompletionRequest openai_model user_input])
      else
        ({ decision := some Decision.Allow, findings := findings,
           generatedText := none,
           errorKind := some ErrorKind.CompletionUnavailable }, [])
    | Decision.Ambiguous =>
      ({ decision := some Decision.Ambiguous, findings := findings,
         generatedText := none, errorKind := none }, [])
  | none =>
    ({ decision := none, findings := [], generatedText := none,
       errorKind := some ErrorKind.ScanFailed }, [])

/-- One full loop iteration of main for a non-empty input: the scan call
followed by decision processing.  Returns the outcome, the POSTs the scan
issued, and the completion requests issued. -/
def processInput (prompt api_key ai_profile_name base_url transaction_id :
    String) (net : PostRequest → Except ScanFailure ScanResponse)
    (openai_client : Bool) (openai_model : String)
    (genResult : Except String String) :
    PipelineOutcome × List PostRequest × List CompletionRequest :=
  let s := scanPrompt prompt api_key ai_profile_name base_url
    transaction_id net
  let r := processScanResult s.2.2 openai_client openai_model prompt
    genResult
  (r.1, s.1, r.2)

/-- Python attribute access value.upper() on a possibly-missing value: on a
string it uppercases, on None it raises AttributeError. -/
def pyUpper : Option String → Except String String
  | some s => Except.ok s.toUpper
  | none => Except.error "AttributeError: NoneType object has no attribute upper"

/-- Prints of the MESSAGE BLOCKED branch, source lines 321-328, which apply
.upper() to category and action unconditionally; the computation raises
when either field is missing. -/
def blockedMessage (category action : Option String) :
    Except String (List String) :=
  match pyUpper category with
  | Except.error e => Except.error e
  | Except.ok c =>
    match pyUpper action with
    | Except.error e => Except.error e
    | Except.ok a =>
      Except.ok ["🚫 MESSAGE BLOCKED BY SECURITY",
                 "Security Status: " ++ c,
                 "Action Taken: " ++ a]

/-- Scan response with category benign, action allow and empty detection
maps (scenario A of the spec). -/
def respBenignAllow : ScanResponse :=
  { category := some "benign", action := some "allow",
    prompt_detected := [], response_detected := [] }

/-! Helper lemmas about the detection loop. -/

/-- Findings the loop emits do not depend on the incoming threats_found
flag: they are exactly the findings of the true entries, in order. -/
lemma detectLoop_fst (origin : Origin) (m : List (String × Bool))
    (tf : Bool) :
    (detectLoop origin m tf).1 = m.filterMap fun kv =>
      if kv.2 = true then some ⟨kv.1, threatName kv.1, origin⟩ else none := by
  induction m generalizing tf with
  | nil => rfl
  | cons kv rest ih =>
    obtain ⟨k, d⟩ := kv
    cases d with
    | true => simp [detectLoop, ih]
    | false => simp [detectLoop, ih]

/-- Flag the loop returns: the incoming flag, or else whether some entry of
the map is true. -/
lemma detectLoop_snd (origin : Origin) (m : List (String × Bool))
    (tf : Bool) :
    (detectLoop origin m tf).2 = (tf || m.any fun kv => kv.2) := by
  induction m generalizing tf with
  | nil => simp [detectLoop]
  | cons kv rest ih =>
    obtain ⟨k, d⟩ := kv
    cases d with
    | true => simp [detectLoop, ih]
    | false => simp [detectLoop, ih]

/-- Every finding the loop emits carries the loop's origin. -/
lemma detectLoop_origin (origin : Origin) (m : List (String × Bool))
    (tf : Bool) (x : ThreatFinding) (hx : x ∈ (detectLoop origin m tf).1) :
    x.origin = origin := by
  rw [detectLoop_fst] at hx
  rcases List.mem_filterMap.1 hx with ⟨kv, _, hkv⟩
  split at hkv
  · cases hkv; rfl
  · cases hkv

/-- When the threaded flag comes back false, no finding was extracted. -/
lemma scanFindings_false_nil (resp : ScanResponse)
    (h : (scanFindings resp).2 = false) : (scanFindings resp).1 = [] := by
  unfold scanFindings at h ⊢
  simp only [detectLoop_snd, Bool.false_or, Bool.or_eq_false_iff] at h
  obtain ⟨h1, h2⟩ := h
  rw [List.any_eq_false] at h1 h2
  have e1 : (detectLoop Origin.Prompt resp.prompt_detected false).1
      = ([] : List ThreatFinding) := by
    rw [detectLoop_fst, List.filterMap_eq_nil_iff]
    intro kv hkv
    simp [h1 kv hkv]
  have e2 : (detectLoop Origin.Response resp.response_detected
      (detectLoop Origin.Prompt resp.prompt_detected false).2).1
      = ([] : List ThreatFinding) := by
    rw [detectLoop_fst, List.filterMap_eq_nil_iff]
    intro kv hkv
    simp [h2 kv hkv]
  simp [e1, e2]

/-- When the threaded flag comes back true, some finding was extracted. -/
lemma scanFindings_true_ne_nil (resp : ScanResponse)
    (h : (scanFindings resp).2 = true) : (scanFindings resp).1 ≠ [] := by
  unfold scanFindings at h ⊢
  simp only [detectLoop_snd, Bool.false_or, Bool.or_eq_true] at h
  intro hnil
  rw [List.append_eq_nil] at hnil
  obtain ⟨hp, hr⟩ := hnil
  rcases h with h | h
  · rw [List.any_eq_true] at h
    rcases h with ⟨kv, hmem, htrue⟩
    have hin : (⟨kv.1, threatName kv.1, Origin.Prompt⟩ : ThreatFinding)
        ∈ (detectLoop Origin.Prompt resp.prompt_detected false).1 := by
      rw [detectLoop_fst]
      exact List.mem_filterMap.2 ⟨kv, hmem, by simp [htrue]⟩
    rw [hp] at hin
    exact absurd hin (List.not_mem_nil _)
  · rw [List.any_eq_true] at h
    rcases h with ⟨kv, hmem, htrue⟩
    have hin : (⟨kv.1, threatName kv.1, Origin.Response⟩ : ThreatFinding)
        ∈ (detectLoop Origin.Response resp.response_detected
          (detectLoop Origin.Prompt resp.prompt_detected false).2).1 := by
      rw [detectLoop_fst]
      exact List.mem_filterMap.2 ⟨kv, hmem, by simp [htrue]⟩
    rw [hr] at hin
    exact absurd hin (List.not_mem_nil _)

/-- C1: for every scan response, the decision follows the exact precedence
of main's chain: category "malicious" or action "block" gives Block;
otherwise category "benign" and action "allow" gives Allow; any other
combination, unrecognized strings included, gives Ambiguous.  In
particular the decision is Allow iff category is "benign" and action is
"allow". -/
theorem decision_precedence (category action : Option String) :
    (decisionOf category action = Decision.Block ↔
      (category = some "malicious" ∨ action = some "block"))
    ∧ (decisionOf category action = Decision.Allow ↔
      (category = some "benign" ∧ action = some "allow"))
    ∧ (decisionOf category action = Decision.Ambiguous ↔
      (¬ (category = some "malicious" ∨ action = some "block")
        ∧ ¬ (category = some "benign" ∧ action = some "allow"))) := by
  unfold decisionOf
  split_ifs with h1 h2
  · refine ⟨by simp [h1], ?_, ?_⟩
    · simp only [iff_false_intro (by simp : Decision.Block ≠ Decision.Allow),
        false_iff]
      rintro ⟨hc, ha⟩
      rcases h1 with h | h
      · rw [hc] at h
        exact absurd h (by decide)
      · rw [ha] at h
        exact absurd h (by decide)
    · simp [h1]
  · exact ⟨by simp [h1], by simp [h2], by simp [h2]⟩
  · exact ⟨by simp [h1], by simp [h2], by simp [h1, h2]⟩

/-- C2: whatever way the scan fails (every ScanFailure kind makes the scan
function return None), decision processing yields an outcome with no
generated text, a decision that is not Allow, the ScanFailed error kind,
and no completion request is ever issued. -/
theorem scan_failure_fail_closed (f : ScanFailure) (openai_client : Bool)
    (openai_model user_input : String) (genResult : Except String String) :
    (processScanResult (handleScanFailure f).2 openai_client openai_model
      user_input genResult).1.generatedText = none
    ∧ (processScanResult (handleScanFailure f).2 openai_client openai_model
      user_input genResult).1.decision ≠ some Decision.Allow
    ∧ (processScanResult (handleScanFailure f).2 openai_client openai_model
      user_input genResult).1.errorKind = some ErrorKind.ScanFailed
    ∧ (processScanResult (handleScanFailure f).2 openai_client openai_model
      user_input genResult).2 = [] := by
  cases f <;> simp [handleScanFailure, processScanResult]

/-- C10: printing of the MESSAGE BLOCKED branch applies .upper() to the
category and action fields unconditionally, so it is total when both
fields are present as strings; but for a response whose action is "block"
while the category key is absent, the Block branch is entered and the
.upper() call on the missing category raises AttributeError. -/
theorem block_branch_missing_category :
    (∀ c a : String, blockedMessage (some c) (some a) =
      Except.ok ["🚫 MESSAGE BLOCKED BY SECURITY",
                 "Security Status: " ++ c.toUpper,
                 "Action Taken: " ++ a.toUpper])
    ∧ decisionOf none (some "block") = Decision.Block
    ∧ blockedMessage none (some "block") =
      Except.error "AttributeError: NoneType object has no attribute upper" := by
  refine ⟨fun c a => rfl, by decide, rfl⟩

/-- Scan function issues exactly one POST, the same whether the network
call succeeds or fails: there is no retry. -/
lemma scanPrompt_fst (prompt api_key ai_profile_name base_url
    transaction_id : String)
    (net : PostRequest → Except ScanFailure ScanResponse) :
    (scanPrompt prompt api_key ai_profile_name base_url transaction_id
      net).1 =
    [{ url := base_url ++ "/v1/scan/sync/request",
       headers := [("Content-Type", "application/json"),
                   ("Accept", "application/json"),
                   ("x-pan-token", api_key)],
       tr_id := transaction_id,
       profile_name := ai_profile_name,
       contents := [prompt] }] := by
  simp only [scanPrompt]
  split <;> rfl

/-- Completion-call policy of decision processing: at most one completion
request, none on Block or Ambiguous, and on Allow exactly one when the
client is available and none otherwise. -/
lemma processScanResult_policy (scan_result : Option ScanResponse)
    (openai_client : Bool) (openai_model user_input : String)
    (genResult : Except String String) :
    (processScanResult scan_result openai_client openai_model user_input
      genResult).2.length ≤ 1
    ∧ ((processScanResult scan_result openai_client openai_model user_input
        genResult).1.decision = some Decision.Block →
      (processScanResult scan_result openai_client openai_model user_input
        genResult).2 = [])
    ∧ ((processScanResult scan_result openai_client openai_model user_input
        genResult).1.decision = some Decision.Ambiguous →
      (processScanResult scan_result openai_client openai_model user_input
        genResult).2 = [])
    ∧ ((processScanResult scan_result openai_client openai_model user_input
        genResult).1.decision = some Decision.Allow →
      (processScanResult scan_result openai_client openai_model user_input
        genResult).2.length = if openai_client then 1 else 0) := by
  cases scan_result with
  | none => simp [processScanResult]
  | some sr =>
    cases hd : decisionOf sr.category sr.action with
    | Block => simp [processScanResult, hd]
    | Ambiguous => simp [processScanResult, hd]
    | Allow =>
      cases openai_client with
      | false => simp [processScanResult, hd]
      | true =>
        cases genResult with
        | ok t => simp [processScanResult, hd]
        | error e => simp [processScanResult, hd]

/-- C3 counterexample: it is not true that an Allow decision always comes
with exactly one completion call — when the OpenAI client failed to
initialize, main reaches the Allow branch and issues none (source lines
386-391). -/
theorem completion_once_refuted :
    ¬ (∀ (scan_result : Option ScanResponse) (openai_client : Bool)
        (openai_model user_input : String)
        (genResult : Except String String),
        (processScanResult scan_result openai_client openai_model user_input
          genResult).1.decision = some Decision.Allow →
        (processScanResult scan_result openai_client openai_model user_input
          genResult).2.length = 1) := by
  intro h
  have h2 := h (some respBenignAllow) false "gpt-4o" "hello"
    (Except.ok "hi") (by decide)
  exact absurd h2 (by decide)

/-- C3 amended: per processed input the controller performs exactly one
scan call and at most one completion call; it never calls completion when
the decision is Block or Ambiguous; on an Allow decision it calls
completion exactly once when the OpenAI client was initialized and zero
times when initialization failed. -/
theorem completion_invocation_policy (prompt api_key ai_profile_name
    base_url transaction_id : String)
    (net : PostRequest → Except ScanFailure ScanResponse)
    (openai_client : Bool) (openai_model : String)
    (genResult : Except String String) :
    (processInput prompt api_key ai_profile_name base_url transaction_id
      net openai_client openai_model genResult).2.1.length = 1
    ∧ (processInput prompt api_key ai_profile_name base_url transaction_id
        net openai_client openai_model genResult).2.2.length ≤ 1
    ∧ ((processInput prompt api_key ai_profile_name base_url transaction_id
        net openai_client openai_model genResult).1.decision
          = some Decision.Block →
      (processInput prompt api_key ai_profile_name base_url transaction_id
        net openai_client openai_model genResult).2.2 = [])
    ∧ ((processInput prompt api_key ai_profile_name base_url transaction_id
        net openai_client openai_model genResult).1.decision
          = some Decision.Ambiguous →
      (processInput prompt api_key ai_profile_name base_url transaction_id
        net openai_client openai_model genResult).2.2 = [])
    ∧ ((processInput prompt api_key ai_profile_name base_url transaction_id
        net openai_client openai_model genResult).1.decision
          = some Decision.Allow →
      (processInput prompt api_key ai_profile_name base_url transaction_id
        net openai_client openai_model genResult).2.2.length
        = if openai_client then 1 else 0) := by
  have hp := processScanResult_policy
    (scanPrompt prompt api_key ai_profile_name base_url transaction_id
      net).2.2 openai_client openai_model prompt genResult
  refine ⟨?_, hp.1, hp.2.1, hp.2.2.1, hp.2.2.2⟩
  show (scanPrompt prompt api_key ai_profile_name base_url transaction_id
    net).1.length = 1
  rw [scanPrompt_fst]
  rfl

/-- C4: when category is the literal string "malicious" and no key of
either detected map is true, exactly one implicit General Threat finding is
synthesized, so a malicious verdict is never reported with an empty
findings list; and the synthesis fires only for the literal category
"malicious" — for any other category value (for example one blocked via
the action field) no General finding appears. -/
theorem malicious_general_threat (resp : ScanResponse) :
    ((resp.category = some "malicious"
        ∧ (∀ kv ∈ resp.prompt_detected, kv.2 = false)
        ∧ (∀ kv ∈ resp.response_detected, kv.2 = false)) →
      reportedFindings resp = [generalThreatFinding])
    ∧ (resp.category = some "malicious" → reportedFindings resp ≠ [])
    ∧ (resp.category ≠ some "malicious" →
        ∀ tf ∈ reportedFindings resp, tf.origin ≠ Origin.General) := by
  refine ⟨?_, ?_, ?_⟩
  · rintro ⟨hc, hp, hr⟩
    have h2 : (scanFindings resp).2 = false := by
      unfold scanFindings
      simp only [detectLoop_snd, Bool.false_or, Bool.or_eq_false_iff]
      constructor
      · rw [List.any_eq_false]
        intro kv hkv
        simp [hp kv hkv]
      · rw [List.any_eq_false]
        intro kv hkv
        simp [hr kv hkv]
    have h1 := scanFindings_false_nil resp h2
    unfold reportedFindings
    simp [hc, h2, h1]
  · intro hc hnil
    unfold reportedFindings at hnil
    cases hb : (scanFindings resp).2 with
    | false =>
      rw [if_pos ⟨hc, hb⟩] at hnil
      exact List.append_ne_nil_of_right_ne_nil _ (by simp) hnil
    | true =>
      have hne := scanFindings_true_ne_nil resp hb
      have : ¬ (resp.category = some "malicious"
          ∧ (scanFindings resp).2 = false) := by
        rintro ⟨h1, h2⟩
        rw [hb] at h2
        exact absurd h2 (by decide)
      rw [if_neg this] at hnil
      exact hne hnil
  · intro hc tf htf
    unfold reportedFindings at htf
    have hcond : ¬ (resp.category = some "malicious"
        ∧ (scanFindings resp).2 = false) := by
      rintro ⟨h1, h2⟩
      exact hc h1
    rw [if_neg hcond] at htf
    unfold scanFindings at htf
    rcases List.mem_append.1 htf with h | h
    · rw [detectLoop_origin Origin.Prompt resp.prompt_detected false tf h]
      decide
    · rw [detectLoop_origin Origin.Response resp.response_detected _ tf h]
      decide

/-- C5: when the scan yields Allow but the completion call then fails, the
outcome keeps the Allow decision, the generated text stays absent, and the
error kind is GenerationFailed, which is distinct from a scan failure and
the decision is never retroactively changed. -/
theorem allow_generation_failure (resp : ScanResponse)
    (openai_model user_input err : String)
    (h : decisionOf resp.category resp.action = Decision.Allow) :
    (processScanResult (some resp) true openai_model user_input
      (Except.error err)).1.decision = some Decision.Allow
    ∧ (processScanResult (some resp) true openai_model user_input
        (Except.error err)).1.generatedText = none
    ∧ (processScanResult (some resp) true openai_model user_input
        (Except.error err)).1.errorKind = some ErrorKind.GenerationFailed
    ∧ ErrorKind.GenerationFailed ≠ ErrorKind.ScanFailed := by
  simp [processScanResult, h]

/-- Witness for allow_generation_failure at the benign/allow response with
a failing completion call. -/
theorem allow_generation_failure_witness :
    decisionOf respBenignAllow.category respBenignAllow.action
      = Decision.Allow
    ∧ ((processScanResult (some respBenignAllow) true "gpt-4o" "hello"
        (Except.error "boom")).1.decision = some Decision.Allow
      ∧ (processScanResult (some respBenignAllow) true "gpt-4o" "hello"
          (Except.error "boom")).1.generatedText = none
      ∧ (processScanResult (some respBenignAllow) true "gpt-4o" "hello"
          (Except.error "boom")).1.errorKind
            = some ErrorKind.GenerationFailed
      ∧ ErrorKind.GenerationFailed ≠ ErrorKind.ScanFailed) :=
  ⟨by decide,
   allow_generation_failure respBenignAllow "gpt-4o" "hello" "boom"
     (by decide)⟩

/-- C6 counterexample: the value the scan surfaces to its caller does not
distinguish the failure kinds — a connection failure and a timeout, two
distinct failures, both come back as the same value None, so the caller
receives one undifferentiated failure value rather than a typed variant. -/
theorem scan_error_opaque_to_caller :
    (handleScanFailure (ScanFailure.ConnectionError "refused")).2 = none
    ∧ (handleScanFailure (ScanFailure.Timeout "no response")).2 = none
    ∧ ¬ (∀ f g : ScanFailure,
        (handleScanFailure f).2 = (handleScanFailure g).2 → f = g) := by
  refine ⟨rfl, rfl, ?_⟩
  intro h
  have h2 := h (ScanFailure.ConnectionError "refused")
    (ScanFailure.Timeout "refused") rfl
  exact absurd h2 (by decide)

/-- C6 amended: each way the scan can fail is caught by its own except
branch with its own diagnostic output (the HTTP branch preserving the
status code and the response body in its diagnostics), there is no
automatic retry (exactly one POST per call regardless of outcome), but
every branch returns the same undifferentiated value None to the caller
rather than a typed error variant. -/
theorem scan_error_branches (f : ScanFailure) (code : Nat) (body : String)
    (prompt api_key ai_profile_name base_url transaction_id : String)
    (net : PostRequest → Except ScanFailure ScanResponse) :
    (handleScanFailure f).2 = none
    ∧ ("   Server Response: " ++ body)
        ∈ (handleScanFailure (ScanFailure.HttpError code body)).1
    ∧ ("❌ HTTP Error: " ++ toString code)
        ∈ (handleScanFailure (ScanFailure.HttpError code body)).1
    ∧ (scanPrompt prompt api_key ai_profile_name base_url transaction_id
        net).1.length = 1
    ∧ ([(handleScanFailure (ScanFailure.HttpError 500 "oops")).1.head?,
        (handleScanFailure (ScanFailure.ConnectionError "e")).1.head?,
        (handleScanFailure (ScanFailure.Timeout "e")).1.head?,
        (handleScanFailure (ScanFailure.RequestError "e")).1.head?,
        (handleScanFailure
          (ScanFailure.JsonDecodeError "e" "r")).1.head?]).Pairwise
        (fun a b => a ≠ b) := by
  refine ⟨?_, ?_, ?_, ?_, ?_⟩
  · cases f <;> rfl
  · simp [handleScanFailure]
  · simp [handleScanFailure]
  · rw [scanPrompt_fst]
    rfl
  · decide

/-- C7: the extracted findings are one finding per true key of
prompt_detected with origin Prompt, then one per true key of
response_detected with origin Response, each group in map-iteration
order; display names of the table keys come from the fixed table, and a
key absent from the table falls back to the underscores-to-spaces,
title-cased form of the key. -/
theorem findings_extraction_order (resp : ScanResponse) :
    (scanFindings resp).1 =
      (resp.prompt_detected.filterMap fun kv =>
        if kv.2 = true then
          some ⟨kv.1, threatName kv.1, Origin.Prompt⟩ else none)
      ++ (resp.response_detected.filterMap fun kv =>
        if kv.2 = true then
          some ⟨kv.1, threatName kv.1, Origin.Response⟩ else none)
    ∧ (threat_categories.map fun kv => threatName kv.1)
        = threat_categories.map Prod.snd
    ∧ (∀ k : String, threat_categories.lookup k = none →
        threatName k = pyTitle (underscoreToSpace k)) := by
  refine ⟨?_, ?_, ?_⟩
  · show (detectLoop Origin.Prompt resp.prompt_detected false).1
        ++ (detectLoop Origin.Response resp.response_detected
          (detectLoop Origin.Prompt resp.prompt_detected false).2).1 = _
    rw [detectLoop_fst, detectLoop_fst]
  · decide
  · intro k hk
    unfold threatName
    rw [hk]

/-- C8: per scan invocation exactly one POST is issued, to the fixed sync
scan path under the base URL, with the fixed JSON, Accept and x-pan-token
headers, a body carrying the per-call transaction id, the profile name and
exactly one content item holding the full prompt text; the diagnostic
display line shows only the first 50 characters of the prompt. -/
theorem scan_request_shape (prompt api_key ai_profile_name base_url
    transaction_id : String)
    (net : PostRequest → Except ScanFailure ScanResponse) :
    (scanPrompt prompt api_key ai_profile_name base_url transaction_id
      net).1 =
      [{ url := base_url ++ "/v1/scan/sync/request",
         headers := [("Content-Type", "application/json"),
                     ("Accept", "application/json"),
                     ("x-pan-token", api_key)],
         tr_id := transaction_id,
         profile_name := ai_profile_name,
         contents := [prompt] }]
    ∧ (scanPrompt prompt api_key ai_profile_name base_url transaction_id
        net).2.1 =
      "   Content: \x27" ++ String.take prompt 50 ++ "...\x27 ("
        ++ toString (String.length prompt) ++ " characters)" := by
  refine ⟨scanPrompt_fst prompt api_key ai_profile_name base_url
    transaction_id net, ?_⟩
  simp only [scanPrompt]
  split <;> rfl

/-- C9: every completion request carries exactly temperature 0.7, maximum
output length 800 tokens, nucleus-sampling threshold 0.95, frequency
penalty 0, presence penalty 0 and no custom stop sequence, and its message
list is exactly the fixed system message followed by the current user
input — no prior conversation turns. -/
theorem completion_request_fixed (openai_model user_input : String) :
    (buildCompletionRequest openai_model user_input).temperature = 7 / 10
    ∧ (buildCompletionRequest openai_model user_input).max_tokens = 800
    ∧ (buildCompletionRequest openai_model user_input).top_p = 19 / 20
    ∧ (buildCompletionRequest openai_model user_input).frequency_penalty = 0
    ∧ (buildCompletionRequest openai_model user_input).presence_penalty = 0
    ∧ (buildCompletionRequest openai_model user_input).stop = none
    ∧ (buildCompletionRequest openai_model user_input).messages =
        [{ role := "system", content := systemMessageContent },
         { role := "user", content := user_input }]
    ∧ (buildCompletionRequest openai_model user_input).messages.length = 2
    := by
  refine ⟨?_, rfl, ?_, rfl, rfl, rfl, rfl, rfl⟩
  · show (0.7 : ℚ) = 7 / 10
    norm_num
  · show (0.95 : ℚ) = 19 / 20
    norm_num

end SecureChatbot
